import Mathlib

/-!
Shallow embedding of the orbital window scheme of the redox repository
(src/filesystem/schemes/orbital/main.rs and resources.rs, together with the
client library src/liborbital/window.rs).  Machine integers are modelled as
Nat / Int; buffers are lists of byte values; fallible calls return an explicit
result type.  The server-side modules display.rs, window.rs and session.rs of
the orbital scheme are not present under src/; the few operations of theirs
that the claims need (Window state, Window::resize, Display::copy_run, the
display extents) are modelled from the spec and marked as such in their doc
comments.
-/

/-- Errno value ENOENT, the code carried by every SysError the orbital
resources raise (std::syscall::ENOENT). -/
def ENOENT : Nat := 2

/-- Result of a fallible resource call, mirroring the Result of
std::syscall::SysError used in resources.rs. -/
inductive SysResult (α : Type) where
  | ok (val : α)
  | err (errno : Nat)
deriving DecidableEq, Repr

/-- Outcome of a Rust computation that can also abort: `panicked` stands for
a Rust panic (or, in release builds, undefined behaviour reached through the
same path, such as an unsigned subtraction underflow feeding a raw copy). -/
inductive RustOutcome (α : Type) where
  | ok (val : α)
  | err (errno : Nat)
  | panicked
deriving DecidableEq, Repr

/-- Modelled from the spec: the server-side Window of orbital/window.rs (the
module is not under src/).  Spec section 3: signed position, unsigned size, a
UTF-8 title, and an off-screen pixel buffer of w*h*4 bytes.  The title is kept
as its list of UTF-8 byte values; the content buffer is a list of byte
values. -/
structure Window where
  x : Int
  y : Int
  width : Nat
  height : Nat
  title : List Nat
  content : List Nat
deriving DecidableEq, Repr

/-- Modelled from the spec: Window::resize reallocates the pixel buffer to
new_w*new_h*4 bytes, zero-filled, updates the stored size and preserves no old
content (spec section 4.2). -/
def Window.resize (w : Window) (nw nh : Nat) : Window :=
  { w with width := nw, height := nh, content := List.replicate (nw * nh * 4) 0 }

/-- UTF-8 encoding of one scalar value, used to turn a Lean String into the
byte list Rust sees. -/
def encodeChar (c : Nat) : List Nat :=
  if c < 0x80 then [c]
  else if c < 0x800 then [0xC0 + c / 64, 0x80 + c % 64]
  else if c < 0x10000 then [0xE0 + c / 4096, 0x80 + c / 64 % 64, 0x80 + c % 64]
  else [0xF0 + c / 262144, 0x80 + c / 4096 % 64, 0x80 + c / 64 % 64, 0x80 + c % 64]

/-- The UTF-8 bytes of a string, as a list of byte values. -/
def strBytes (s : String) : List Nat :=
  s.toList.foldr (fun c acc => encodeChar c.toNat ++ acc) []

/-- Modelled from the spec: construction of a server-side Window (module
orbital/window.rs is not under src/): stores position, size and title and
allocates the w*h*4-byte pixel buffer (spec section 3). -/
def Window.new (x y : Int) (w h : Nat) (title : String) : Window :=
  { x := x, y := y, width := w, height := h,
    title := strBytes title, content := List.replicate (w * h * 4) 0 }

/-- Modelled from the spec: Display::copy_run (display.rs is not under src/)
is a raw copy of `len` bytes of `src` into `dst` starting at byte `off`
(spec section 4.2, write_pixels copies into the buffer). -/
def copy_run (dst : List Nat) (off : Nat) (src : List Nat) (len : Nat) : List Nat :=
  match dst, off with
  | [], _ => []
  | d :: ds, Nat.succ o => d :: copy_run ds o src len
  | d :: ds, 0 =>
    match len with
    | 0 => d :: ds
    | Nat.succ l => src.headD 0 :: copy_run ds 0 src.tail l

namespace ContentResource

/-- ContentResource::read (resources.rs lines 61-63): left unimplemented by
the source, it unconditionally fails with ENOENT; the callers buffer is left
untouched. -/
def read (_w : Window) (_seek : Nat) (buf : List Nat) : SysResult Nat × List Nat :=
  (.err ENOENT, buf)

/-- ContentResource::write (resources.rs lines 66-76): size = min(content.size
- seek, buf.len()), raw copy of size bytes at the seek point, the seek point
advances by size and size is returned.  The usize subtraction content.size -
seek underflows when seek exceeds the buffer length; that path is modelled as
`panicked`.  Returns the updated window, the new seek point and the count. -/
def write (w : Window) (seek : Nat) (buf : List Nat) : RustOutcome (Window × Nat × Nat) :=
  if seek ≤ w.content.length then
    .ok ({ w with content :=
            copy_run w.content seek buf (min (w.content.length - seek) buf.length) },
         seek + min (w.content.length - seek) buf.length,
         min (w.content.length - seek) buf.length)
  else
    .panicked

end ContentResource

/-- Little-endian 8-byte encoding of an unsigned 64-bit value, the layout
ptr::write gives a [u64;2] on the x86 target (native byte order). -/
def u64Bytes (n : Nat) : List Nat :=
  [n % 256, n / 256 % 256, n / 256 ^ 2 % 256, n / 256 ^ 3 % 256,
   n / 256 ^ 4 % 256, n / 256 ^ 5 % 256, n / 256 ^ 6 % 256, n / 256 ^ 7 % 256]

/-- Little-endian decoding of 8 bytes into an unsigned 64-bit value, the
layout ptr::read takes them from on the x86 target. -/
def bytesToU64 (l : List Nat) : Nat :=
  match l with
  | [b0, b1, b2, b3, b4, b5, b6, b7] =>
    b0 + 256 * (b1 + 256 * (b2 + 256 * (b3 + 256 * (b4 + 256 * (b5 + 256 * (b6 + 256 * b7))))))
  | _ => 0

namespace DimensionResource

/-- DimensionResource::read (resources.rs lines 175-186): with a buffer of at
least 16 bytes it writes [width as u64, height as u64] into the first 16
bytes, resizes the window to that same size and returns 16; with a shorter
buffer it fails with ENOENT touching nothing.  Returns (result, buffer after
the call, window after the call). -/
def read (w : Window) (buf : List Nat) : SysResult Nat × List Nat × Window :=
  if 16 ≤ buf.length then
    (.ok 16,
     u64Bytes (w.width % 2 ^ 64) ++ u64Bytes (w.height % 2 ^ 64) ++ buf.drop 16,
     w.resize (w.width % 2 ^ 64) (w.height % 2 ^ 64))
  else
    (.err ENOENT, buf, w)

/-- DimensionResource::write (resources.rs lines 188-198): with a buffer of at
least 16 bytes it decodes [u64;2] from the first 16 bytes, resizes the window
to that size and returns 16; with a shorter buffer it fails with ENOENT
touching nothing.  Returns (result, window after the call). -/
def write (w : Window) (buf : List Nat) : SysResult Nat × Window :=
  if 16 ≤ buf.length then
    (.ok 16, w.resize (bytesToU64 (buf.take 8)) (bytesToU64 ((buf.drop 8).take 8)))
  else
    (.err ENOENT, w)

end DimensionResource

/-- The buffer part of copy_run is a take/append/drop splice when the copy
fits: copying len bytes of src at off replaces dst[off, off+len) by the first
len bytes of src and keeps everything else. -/
theorem copy_run_eq_splice (dst src : List Nat) (off len : Nat)
    (hoff : off + len ≤ dst.length) (hlen : len ≤ src.length) :
    copy_run dst off src len = dst.take off ++ src.take len ++ dst.drop (off + len) := by
  induction dst generalizing off len src with
  | nil =>
    simp only [List.length_nil, Nat.le_zero, Nat.add_eq_zero] at hoff
    simp [copy_run, hoff.1, hoff.2]
  | cons d ds ih =>
    cases off with
    | succ o =>
      simp only [copy_run, List.take_succ_cons, List.drop_succ_cons, List.cons_append]
      rw [ih src o len (by simp at hoff; omega) hlen]
      simp [Nat.succ_add]
    | zero =>
      cases len with
      | zero => simp [copy_run]
      | succ l =>
        cases src with
        | nil => simp at hlen
        | cons s ss =>
          simp only [copy_run, List.headD_cons, List.tail_cons, List.take_succ_cons,
            List.nil_append, List.cons_append, List.drop_succ_cons, List.take_nil]
          rw [ih ss 0 l (by simpa using hoff) (by simpa using hlen)]
          simp

/-- copy_run never changes the length of the destination buffer. -/
theorem copy_run_length (dst src : List Nat) (off len : Nat) :
    (copy_run dst off src len).length = dst.length := by
  induction dst generalizing off len src with
  | nil => cases off <;> simp [copy_run]
  | cons d ds ih =>
    cases off with
    | succ o => simp [copy_run, ih]
    | zero => cases len with
      | zero => simp [copy_run]
      | succ l => simp [copy_run, ih]

/-- A UTF-8 continuation byte, in 0x80..0xBF. -/
def contByte (b : Nat) : Bool := 0x80 ≤ b && b ≤ 0xBF

/-- Modelled from the spec: the effect on the stored title bytes of
String::from_utf8_lossy(buf).replace(U+FFFD, "?") in TitleResource::write
(from_utf8_lossy lives in the std of this repository, which is not under
src/; spec section 4.2: decodes as UTF-8, replacing any invalid byte sequence
with ?).  Well-formed sequences are kept, except that the three-byte encoding
EF BF BD of U+FFFD becomes "?" through the replace step; each maximal invalid
subpart becomes one replacement character and hence one "?" byte (0x3F). -/
def utf8Clean : List Nat → List Nat
  | [] => []
  | b :: r =>
    if b < 0x80 then b :: utf8Clean r
    else if 0xC2 ≤ b && b ≤ 0xDF then
      match r with
      | c :: r2 => if contByte c then b :: c :: utf8Clean r2 else 0x3F :: utf8Clean (c :: r2)
      | [] => [0x3F]
    else if 0xE0 ≤ b && b ≤ 0xEF then
      match r with
      | c :: r2 =>
        if (if b = 0xE0 then 0xA0 else 0x80) ≤ c && c ≤ (if b = 0xED then 0x9F else 0xBF) then
          match r2 with
          | d :: r3 =>
            if contByte d then
              if b = 0xEF && c = 0xBF && d = 0xBD then 0x3F :: utf8Clean r3
              else b :: c :: d :: utf8Clean r3
            else 0x3F :: utf8Clean (d :: r3)
          | [] => [0x3F]
        else 0x3F :: utf8Clean (c :: r2)
      | [] => [0x3F]
    else if 0xF0 ≤ b && b ≤ 0xF4 then
      match r with
      | c :: r2 =>
        if (if b = 0xF0 then 0x90 else 0x80) ≤ c && c ≤ (if b = 0xF4 then 0x8F else 0xBF) then
          match r2 with
          | d :: r3 =>
            if contByte d then
              match r3 with
              | e :: r4 =>
                if contByte e then b :: c :: d :: e :: utf8Clean r4
                else 0x3F :: utf8Clean (e :: r4)
              | [] => [0x3F]
            else 0x3F :: utf8Clean (d :: r3)
          | [] => [0x3F]
        else 0x3F :: utf8Clean (c :: r2)
      | [] => [0x3F]
    else 0x3F :: utf8Clean r

/-- Byte lists that are well-formed UTF-8 and contain no encoding of U+FFFD:
exactly the inputs the lossy clean-up of TitleResource::write keeps
unchanged. -/
def validUtf8NoFFFD : List Nat → Bool
  | [] => true
  | b :: r =>
    if b < 0x80 then validUtf8NoFFFD r
    else if 0xC2 ≤ b && b ≤ 0xDF then
      match r with
      | c :: r2 => contByte c && validUtf8NoFFFD r2
      | [] => false
    else if 0xE0 ≤ b && b ≤ 0xEF then
      match r with
      | c :: r2 =>
        if (if b = 0xE0 then 0xA0 else 0x80) ≤ c && c ≤ (if b = 0xED then 0x9F else 0xBF) then
          match r2 with
          | d :: r3 =>
            contByte d && !(b = 0xEF && c = 0xBF && d = 0xBD) && validUtf8NoFFFD r3
          | [] => false
        else false
      | [] => false
    else if 0xF0 ≤ b && b ≤ 0xF4 then
      match r with
      | c :: r2 =>
        if (if b = 0xF0 then 0x90 else 0x80) ≤ c && c ≤ (if b = 0xF4 then 0x8F else 0xBF) then
          match r2 with
          | d :: r3 =>
            contByte d &&
            match r3 with
            | e :: r4 => contByte e && validUtf8NoFFFD r4
            | [] => false
          | [] => false
        else false
      | [] => false
    else false

set_option maxHeartbeats 1000000 in
/-- The lossy clean-up of TitleResource::write keeps well-formed UTF-8 that
contains no U+FFFD unchanged. -/
theorem utf8Clean_of_valid (l : List Nat) (h : validUtf8NoFFFD l = true) :
    utf8Clean l = l := by
  induction l using utf8Clean.induct
  all_goals (rw [utf8Clean.eq_def]; try (rw [validUtf8NoFFFD.eq_def] at h); try simp_all [contByte])
  all_goals try (exact absurd h.1 (by omega))
  all_goals try (split_ifs <;> try simp_all)
  all_goals try omega

namespace TitleResource

/-- TitleResource::read (resources.rs lines 112-125): if the callers buffer
is at least as long as the stored title, the title bytes are copied into the
front of the buffer and the title length returned; otherwise the call fails
with ENOENT and the buffer is untouched.  Returns (result, buffer after the
call). -/
def read (w : Window) (buf : List Nat) : SysResult Nat × List Nat :=
  if w.title.length ≤ buf.length then
    (.ok w.title.length, w.title ++ buf.drop w.title.length)
  else
    (.err ENOENT, buf)

/-- TitleResource::write (resources.rs lines 127-132): stores
from_utf8_lossy(buf).replace(U+FFFD, "?") as the new title and returns the
input length.  Returns (result, window after the call). -/
def write (w : Window) (buf : List Nat) : SysResult Nat × Window :=
  (.ok buf.length, { w with title := utf8Clean buf })

end TitleResource

/-- Modelled from the spec: str::to_num of the std of this repository (not
under src/); spec sections 4.3 and 7: numeric fields use a parse-or-default
rule and an unparsable field yields 0 silently, never an error.  A nonempty
all-digit string parses as decimal; anything else yields 0. -/
def to_num (s : String) : Nat :=
  if s.toList ≠ [] ∧ s.toList.all Char.isDigit then
    s.toList.foldl (fun a c => a * 10 + (c.toNat - 48)) 0
  else 0

/-- Modelled from the spec: str::to_num_signed of the std of this repository
(not under src/), the signed variant of the parse-or-default rule: an
optional leading minus sign followed by digits; anything unparsable yields
0. -/
def to_num_signed (s : String) : Int :=
  match s.toList with
  | '-' :: rest => -(to_num (String.mk rest) : Int)
  | _ => (to_num s : Int)

/-- Coordinate field of a create address (Scheme::open, main.rs lines
148-155): path segment i through to_num_signed, defaulting to 0 when the
segment is missing. -/
def parseCoord (path : List String) (i : Nat) : Int :=
  match path.get? i with
  | some v => to_num_signed v
  | none => 0

/-- Extent field of a create address (Scheme::open, main.rs lines 156-163):
path segment i through to_num, defaulting to 100 when the segment is
missing. -/
def parseExtent (path : List String) (i : Nat) : Nat :=
  match path.get? i with
  | some v => to_num v
  | none => 100

/-- Title of a create address (Scheme::open, main.rs lines 165-173): path
segment 4, or the empty string, with every further segment rejoined with a
slash. -/
def parseTitle (path : List String) : String :=
  (path.drop 5).foldl (fun t p => t ++ "/" ++ p) ((path.get? 4).getD "")

/-- Lookup in the window table, the model of BTreeMap::get: the value stored
under the first matching key, if any. -/
def lookupW : List (Nat × Window) → Nat → Option Window
  | [], _ => none
  | a :: t, k => if a.1 = k then some a.2 else lookupW t k

/-- State of the Scheme (main.rs lines 104-110) together with the display
extents of its session.  The display extents stand for
session.display.width/height, whose module is not under src/ and which only
enter through the cascade comparison; the window table is the windows
BTreeMap keyed by window id. -/
structure SchemeState where
  display_w : Nat
  display_h : Nat
  next_x : Int
  next_y : Int
  next_window_id : Nat
  windows : List (Nat × Window)
deriving DecidableEq, Repr

/-- The largest unsigned 64-bit value, u64::MAX. -/
def u64MAX : Nat := 2 ^ 64 - 1

/-- Scheme::new (main.rs lines 123-139): cascade cursors at 0, next window
id 1, empty window table. -/
def SchemeState.new (dw dh : Nat) : SchemeState :=
  { display_w := dw, display_h := dh, next_x := 0, next_y := 0,
    next_window_id := 1, windows := [] }

/-- Scheme::next_id (main.rs lines 113-121): fails when the counter has
reached u64::MAX, otherwise returns the counter and increments it. -/
def SchemeState.next_id (s : SchemeState) : Option Nat × SchemeState :=
  if s.next_window_id = u64MAX then (none, s)
  else (some s.next_window_id, { s with next_window_id := s.next_window_id + 1 })

/-- One axis of the auto-placement in Scheme::open (main.rs lines 175-187)
as the code performs it: the cursor is first wrapped to 0 when
cursor > display_extent - window_extent, then advanced by 32, and the
advanced value is both the stored cursor and the placement.  Returns the new
cursor, which is also the placement. -/
def cascadeCode (cursor : Int) (extent size : Nat) : Int :=
  (if cursor > (extent : Int) - (size : Int) then 0 else cursor) + 32

/-- One axis of auto-placement as the claim words it: the cursor is advanced
by 32 units, wrapped back to 0 once cursor > display_extent - window_extent,
and the possibly-just-wrapped cursor is the placement.  Stated from the
words of the claim, to be compared with cascadeCode. -/
def cascadeClaim (cursor : Int) (extent size : Nat) : Int :=
  if cursor + 32 > (extent : Int) - (size : Int) then 0 else cursor + 32

/-- The create branch of Scheme::open (main.rs lines 146-205, empty host):
parses position, size and title with the parse-or-default rule, runs the
cascade auto-placement when x <= 0 or y <= 0, allocates an id and inserts
the new window into the table.  Returns (allocated id and window if any,
state after the call). -/
def SchemeState.createOpen (s : SchemeState) (path : List String) :
    Option (Nat × Window) × SchemeState :=
  let pointx := parseCoord path 0
  let pointy := parseCoord path 1
  let size_width := parseExtent path 2
  let size_height := parseExtent path 3
  let title := parseTitle path
  let place := pointx ≤ 0 ∨ pointy ≤ 0
  let px := if place then cascadeCode s.next_x s.display_w size_width else pointx
  let py := if place then cascadeCode s.next_y s.display_h size_height else pointy
  let s1 := if place then { s with next_x := px, next_y := py } else s
  match s1.next_id with
  | (some id, s2) =>
    let w := Window.new px py size_width size_height title
    (some (id, w), { s2 with windows := s2.windows ++ [(id, w)] })
  | (none, s2) => (none, s2)

/-- A handle returned by Scheme::open: the whole-window resource or one of
the four sub-resource views, each tagged with the owning window id (the id
field of Resource in main.rs). -/
inductive Handle where
  | whole (id : Nat)
  | content (id : Nat)
  | title (id : Nat)
  | events (id : Nat)
  | dimensions (id : Nat)
deriving DecidableEq, Repr

/-- The owning window id of a handle. -/
def Handle.wid : Handle → Nat
  | .whole i => i
  | .content i => i
  | .title i => i
  | .events i => i
  | .dimensions i => i

/-- Outcome of the id branch of Scheme::open: a handle, None (surfaced to
the caller as NotFound), or a panic of the server. -/
inductive OpenOutcome where
  | opened (h : Handle)
  | notFound
  | panicked
deriving DecidableEq, Repr

/-- The id branch of Scheme::open (main.rs lines 235-262): the window table
is indexed with the parsed id first - BTreeMap indexing panics when the key
is absent - and only then is the optional property segment matched against
content, title, events and dimensions; an unrecognized property gives None,
which the kernel surfaces to the caller as not-found. -/
def SchemeState.openId (s : SchemeState) (id : Nat) (path : List String) : OpenOutcome :=
  match lookupW s.windows id with
  | none => .panicked
  | some _ =>
    match path.get? 0 with
    | some property =>
      if property = "content" then .opened (.content id)
      else if property = "title" then .opened (.title id)
      else if property = "events" then .opened (.events id)
      else if property = "dimensions" then .opened (.dimensions id)
      else .notFound
    | none => .opened (.whole id)

/-- Drop for Resource (main.rs lines 83-102): removes the entry keyed by the
id of the dropped handle from the window table, unconditionally - the
commented-out reference-count check is dead code, so the kind of the handle
and any outstanding sibling handles are ignored. -/
def dropResource (windows : List (Nat × Window)) (h : Handle) : List (Nat × Window) :=
  windows.filter (fun p => p.1 ≠ h.wid)

/-- A sequence of create calls against the scheme, returning the ids handed
out in order together with the final state. -/
def runCreates (s : SchemeState) : List (List String) → List Nat × SchemeState
  | [] => ([], s)
  | p :: ps =>
    match s.createOpen p with
    | (some (id, _), s1) =>
      let (ids, s2) := runCreates s1 ps
      (id :: ids, s2)
    | (none, s1) => runCreates s1 ps

/-- Decoding the little-endian encoding of n gives back n reduced to 64
bits. -/
theorem bytesToU64_u64Bytes (n : Nat) : bytesToU64 (u64Bytes n) = n % 2 ^ 64 := by
  simp only [bytesToU64, u64Bytes]
  omega

/-- A string that is not a nonempty digit string parses to 0 under the
parse-or-default rule. -/
def isNumeric (s : String) : Bool :=
  !s.toList.isEmpty && s.toList.all Char.isDigit

/-- A string that is not an optionally minus-signed nonempty digit string
parses to 0 under the signed parse-or-default rule. -/
def isNumericSigned (s : String) : Bool :=
  match s.toList with
  | '-' :: rest => !rest.isEmpty && rest.all Char.isDigit
  | _ => isNumeric s

/-- Unparsable strings yield 0 through to_num. -/
theorem to_num_of_not_numeric (s : String) (h : isNumeric s = false) : to_num s = 0 := by
  rw [to_num, if_neg]
  intro hc
  rcases hc with ⟨h1, h2⟩
  simp [isNumeric] at h
  have ht : s.toList = s.data := rfl
  rw [ht] at h1 h2
  rcases h h1 with ⟨x, hx, hdx⟩
  have hd := List.all_eq_true.mp h2 x hx
  rw [hdx] at hd
  cases hd

/-- Unparsable strings yield 0 through to_num_signed. -/
theorem to_num_signed_of_not_numeric (s : String) (h : isNumericSigned s = false) :
    to_num_signed s = 0 := by
  rw [isNumericSigned.eq_def] at h
  rw [to_num_signed.eq_def]
  split at h
  next rest heq =>
    rw [to_num, if_neg]
    · simp
    intro hc
    rcases hc with ⟨h1, h2⟩
    have ht : (String.mk rest).toList = rest := rfl
    rw [ht] at h1 h2
    simp [h2] at h
    simp [h] at h1
  next hother =>
    rw [to_num_of_not_numeric s h]
    rfl

/-- Removing the entry keyed by the dropped handle leaves no entry under
that key. -/
theorem lookupW_dropResource_self (windows : List (Nat × Window)) (h : Handle) :
    lookupW (dropResource windows h) h.wid = none := by
  induction windows with
  | nil => rfl
  | cons a t ih =>
    by_cases ha : a.1 = h.wid
    · simpa [dropResource, List.filter, ha] using ih
    · simpa [dropResource, List.filter, ha, lookupW] using ih

/-- Removing the entry keyed by the dropped handle leaves every other key
untouched. -/
theorem lookupW_dropResource_other (windows : List (Nat × Window)) (h : Handle)
    (j : Nat) (hj : j ≠ h.wid) :
    lookupW (dropResource windows h) j = lookupW windows j := by
  induction windows with
  | nil => rfl
  | cons a t ih =>
    by_cases ha : a.1 = h.wid
    · have haj : ¬a.1 = j := by rw [ha]; exact fun hc => hj hc.symm
      simpa [dropResource, List.filter, ha, lookupW, haj, Ne.symm hj] using ih
    · by_cases haj : a.1 = j
      · simp [dropResource, List.filter, ha, lookupW, haj, hj]
      · simpa [dropResource, List.filter, ha, lookupW, haj, hj] using ih

/-- Create never decreases the id counter. -/
theorem createOpen_counter_le (s : SchemeState) (p : List String) :
    s.next_window_id ≤ (s.createOpen p).2.next_window_id := by
  rw [SchemeState.createOpen]
  by_cases hplace : parseCoord p 0 ≤ 0 ∨ parseCoord p 1 ≤ 0 <;>
    by_cases hmax : s.next_window_id = u64MAX <;>
      simp [hplace, hmax, SchemeState.next_id]

/-- A successful create hands out the current counter value and leaves the
counter one past it. -/
theorem createOpen_some (s : SchemeState) (p : List String) (id : Nat) (w : Window)
    (h : (s.createOpen p).1 = some (id, w)) :
    id = s.next_window_id ∧ (s.createOpen p).2.next_window_id = id + 1 := by
  rw [SchemeState.createOpen] at h ⊢
  by_cases hplace : parseCoord p 0 ≤ 0 ∨ parseCoord p 1 ≤ 0 <;>
    by_cases hmax : s.next_window_id = u64MAX <;>
      simp [hplace, hmax, SchemeState.next_id] at h ⊢ <;>
        simp [h.1.symm]

/-- With the counter at u64::MAX, create allocates no id. -/
theorem createOpen_exhausted (s : SchemeState) (p : List String)
    (h : s.next_window_id = u64MAX) : (s.createOpen p).1 = none := by
  rw [SchemeState.createOpen]
  by_cases hplace : parseCoord p 0 ≤ 0 ∨ parseCoord p 1 ≤ 0 <;>
    simp [hplace, h, SchemeState.next_id]

/-- Every id handed out by a run of creates is at least the starting counter
value. -/
theorem runCreates_lb (ps : List (List String)) (s : SchemeState) :
    ∀ id ∈ (runCreates s ps).1, s.next_window_id ≤ id := by
  induction ps generalizing s with
  | nil => intro id hid; simp [runCreates] at hid
  | cons p ps ih =>
    intro id hid
    rw [runCreates] at hid
    rcases hco : s.createOpen p with ⟨r, s1⟩
    rcases r with _ | ⟨i, w⟩
    · rw [hco] at hid
      have hle := createOpen_counter_le s p
      rw [hco] at hle
      exact le_trans hle (ih s1 id hid)
    · rw [hco] at hid
      simp only [List.mem_cons] at hid
      rcases createOpen_some s p i w (by rw [hco]) with ⟨hi, hc⟩
      rcases hid with hid | hid
      · omega
      · have hle : s.next_window_id ≤ s1.next_window_id := by
          have := createOpen_counter_le s p
          rwa [hco] at this
        exact le_trans hle (ih s1 id hid)

/-- The ids handed out by a run of creates are strictly increasing. -/
theorem runCreates_pairwise (ps : List (List String)) (s : SchemeState) :
    List.Pairwise (· < ·) (runCreates s ps).1 := by
  induction ps generalizing s with
  | nil => simp [runCreates]
  | cons p ps ih =>
    rw [runCreates]
    rcases hco : s.createOpen p with ⟨r, s1⟩
    rcases r with _ | ⟨i, w⟩
    · exact ih s1
    · simp only []
      refine List.Pairwise.cons ?_ (ih s1)
      intro b hb
      rcases createOpen_some s p i w (by rw [hco]) with ⟨hi, hc⟩
      have hlb := runCreates_lb ps s1 b hb
      rw [hco] at hc
      have hc2 : s1.next_window_id = i + 1 := hc
      omega

/-- C2: for every window and every handle on it, whole-window or any single
sub-resource handle, dropping that one handle removes the entry of the
owning window from the window table (and touches no other entry), regardless
of how many other handles on the same window are still outstanding - the
drop never consults a reference count. -/
theorem claim2_drop_any_handle_removes_window (windows : List (Nat × Window)) (h : Handle) :
    lookupW (dropResource windows h) h.wid = none
    ∧ ∀ j, j ≠ h.wid → lookupW (dropResource windows h) j = lookupW windows j :=
  ⟨lookupW_dropResource_self windows h,
   fun j hj => lookupW_dropResource_other windows h j hj⟩

/-- Witness for C2 at a table with two windows, dropping only the title
handle of window 1: the entry of window 1 is gone, window 2 is untouched. -/
theorem claim2_witness :
    lookupW (dropResource [(1, Window.new 0 0 1 1 ""), (2, Window.new 0 0 1 1 "")]
      (Handle.title 1)) 1 = none
    ∧ lookupW (dropResource [(1, Window.new 0 0 1 1 ""), (2, Window.new 0 0 1 1 "")]
        (Handle.title 1)) 2
      = lookupW [(1, Window.new 0 0 1 1 ""), (2, Window.new 0 0 1 1 "")] 2 :=
  ⟨(claim2_drop_any_handle_removes_window
      [(1, Window.new 0 0 1 1 ""), (2, Window.new 0 0 1 1 "")] (Handle.title 1)).1,
   (claim2_drop_any_handle_removes_window
      [(1, Window.new 0 0 1 1 ""), (2, Window.new 0 0 1 1 "")] (Handle.title 1)).2 2
     (by decide)⟩

/-- C6: across any sequence of create calls the successfully returned window
ids are strictly increasing (hence unique and never reused), and once the
counter has exhausted the 64-bit id space a create call allocates no id. -/
theorem claim6_ids_strictly_increasing (s : SchemeState) (ps : List (List String)) :
    List.Pairwise (· < ·) (runCreates s ps).1
    ∧ (s.next_window_id = u64MAX → ∀ p, (s.createOpen p).1 = none) :=
  ⟨runCreates_pairwise ps s, fun h p => createOpen_exhausted s p h⟩

/-- Witness for C6 at a state whose counter sits at u64::MAX: the run yields
a strictly increasing (here empty) id list and the create call returns no
id. -/
theorem claim6_witness :
    List.Pairwise (· < ·)
      (runCreates { SchemeState.new 1 1 with next_window_id := u64MAX } [["0"]]).1
    ∧ (({ SchemeState.new 1 1 with next_window_id := u64MAX } : SchemeState).createOpen
        ["0"]).1 = none :=
  ⟨(claim6_ids_strictly_increasing
      { SchemeState.new 1 1 with next_window_id := u64MAX } [["0"]]).1,
   (claim6_ids_strictly_increasing
      { SchemeState.new 1 1 with next_window_id := u64MAX } [["0"]]).2 rfl ["0"]⟩

/-- C8: a Content write with the cursor at a valid offset copies exactly
min(buffer_len - offset, len(bytes)) bytes into the pixel buffer at the
offset, returns that count, advances the cursor by it, never grows the
buffer, and silently drops the excess input bytes without error. -/
theorem claim8_content_write_clips (w : Window) (seek : Nat) (buf : List Nat)
    (h : seek ≤ w.content.length) :
    ContentResource.write w seek buf =
      .ok ({ w with content := w.content.take seek
                      ++ buf.take (min (w.content.length - seek) buf.length)
                      ++ w.content.drop (seek + min (w.content.length - seek) buf.length) },
           seek + min (w.content.length - seek) buf.length,
           min (w.content.length - seek) buf.length)
    ∧ ∀ w2 ns c, ContentResource.write w seek buf = .ok (w2, ns, c) →
        w2.content.length = w.content.length := by
  constructor
  · rw [ContentResource.write, if_pos h]
    rw [copy_run_eq_splice w.content buf seek (min (w.content.length - seek) buf.length)
      (by omega) (by omega)]
  · intro w2 ns c hw
    rw [ContentResource.write, if_pos h] at hw
    simp only [RustOutcome.ok.injEq, Prod.mk.injEq] at hw
    rcases hw with ⟨hw2, -, -⟩
    rw [← hw2]
    simp [copy_run_length]

/-- Witness for C8 at a 4-byte buffer, cursor 3, 2 input bytes: one byte is
copied, the count is 1, the cursor moves to 4 and the buffer keeps length
4. -/
theorem claim8_witness :
    ContentResource.write (Window.new 0 0 1 1 "") 3 [7, 8] =
      .ok ({ Window.new 0 0 1 1 "" with
              content := (Window.new 0 0 1 1 "").content.take 3
                ++ [7, 8].take (min ((Window.new 0 0 1 1 "").content.length - 3) 2)
                ++ (Window.new 0 0 1 1 "").content.drop
                    (3 + min ((Window.new 0 0 1 1 "").content.length - 3) 2) },
           3 + min ((Window.new 0 0 1 1 "").content.length - 3) 2,
           min ((Window.new 0 0 1 1 "").content.length - 3) 2)
    ∧ ∀ w2 ns c, ContentResource.write (Window.new 0 0 1 1 "") 3 [7, 8] = .ok (w2, ns, c) →
        w2.content.length = (Window.new 0 0 1 1 "").content.length :=
  claim8_content_write_clips (Window.new 0 0 1 1 "") 3 [7, 8] (by decide)

/-- C10: a Dimensions read or write with a buffer shorter than 16 bytes
fails with the not-found error and changes nothing: the buffer, the window
size and the pixel buffer all keep their previous values. -/
theorem claim10_short_dimensions_buffer (w : Window) (buf : List Nat) (h : buf.length < 16) :
    DimensionResource.read w buf = (.err ENOENT, buf, w)
    ∧ DimensionResource.write w buf = (.err ENOENT, w) := by
  constructor
  · rw [DimensionResource.read, if_neg (by omega)]
  · rw [DimensionResource.write, if_neg (by omega)]

/-- Witness for C10 at a 3-byte buffer: both calls fail with ENOENT and
leave the window and buffer untouched. -/
theorem claim10_witness :
    DimensionResource.read (Window.new 0 0 1 1 "") [0, 0, 0] =
      (.err ENOENT, [0, 0, 0], Window.new 0 0 1 1 "")
    ∧ DimensionResource.write (Window.new 0 0 1 1 "") [0, 0, 0] =
      (.err ENOENT, Window.new 0 0 1 1 "") :=
  claim10_short_dimensions_buffer (Window.new 0 0 1 1 "") [0, 0, 0] (by decide)

/-- C9: a Dimensions read with a buffer of at least 16 bytes fills the first
16 bytes with two 8-byte unsigned integers, width then height, equal to the
current window size, returns 16 and commits a resize to that same size; a
Dimensions write decodes the same 16-byte record and resizes the window to
the decoded width and height, returning 16. -/
theorem claim9_dimensions_record (w : Window) (buf : List Nat) (W H : Nat) (rest : List Nat)
    (hbuf : 16 ≤ buf.length) (hw : w.width < 2 ^ 64) (hh : w.height < 2 ^ 64)
    (hW : W < 2 ^ 64) (hH : H < 2 ^ 64) :
    DimensionResource.read w buf
      = (.ok 16, u64Bytes w.width ++ u64Bytes w.height ++ buf.drop 16,
         w.resize w.width w.height)
    ∧ DimensionResource.write w (u64Bytes W ++ u64Bytes H ++ rest) = (.ok 16, w.resize W H)
    ∧ DimensionResource.write w buf
      = (.ok 16, w.resize (bytesToU64 (buf.take 8)) (bytesToU64 ((buf.drop 8).take 8))) := by
  refine ⟨?_, ?_, ?_⟩
  · rw [DimensionResource.read, if_pos hbuf, Nat.mod_eq_of_lt hw, Nat.mod_eq_of_lt hh]
  · have hlen : 16 ≤ (u64Bytes W ++ u64Bytes H ++ rest).length := by simp [u64Bytes]
    have h1 : (u64Bytes W ++ u64Bytes H ++ rest).take 8 = u64Bytes W := by
      rw [List.append_assoc, List.take_left' (by simp [u64Bytes])]
    have h2 : ((u64Bytes W ++ u64Bytes H ++ rest).drop 8).take 8 = u64Bytes H := by
      rw [List.append_assoc, List.drop_left' (by simp [u64Bytes]),
        List.take_left' (by simp [u64Bytes])]
    rw [DimensionResource.write, if_pos hlen, h1, h2, bytesToU64_u64Bytes,
      bytesToU64_u64Bytes, Nat.mod_eq_of_lt hW, Nat.mod_eq_of_lt hH]
  · rw [DimensionResource.write, if_pos hbuf]

/-- Witness for C9 at a 1 by 1 window, a 16-byte zero buffer and the record
for a 2 by 3 resize. -/
theorem claim9_witness :
    DimensionResource.read (Window.new 0 0 1 1 "") (List.replicate 16 0)
      = (.ok 16, u64Bytes (Window.new 0 0 1 1 "").width
          ++ u64Bytes (Window.new 0 0 1 1 "").height ++ (List.replicate 16 0).drop 16,
         (Window.new 0 0 1 1 "").resize (Window.new 0 0 1 1 "").width
           (Window.new 0 0 1 1 "").height)
    ∧ DimensionResource.write (Window.new 0 0 1 1 "") (u64Bytes 2 ++ u64Bytes 3 ++ [])
      = (.ok 16, (Window.new 0 0 1 1 "").resize 2 3)
    ∧ DimensionResource.write (Window.new 0 0 1 1 "") (List.replicate 16 0)
      = (.ok 16, (Window.new 0 0 1 1 "").resize
          (bytesToU64 ((List.replicate 16 0).take 8))
          (bytesToU64 (((List.replicate 16 0).drop 8).take 8))) :=
  claim9_dimensions_record (Window.new 0 0 1 1 "") (List.replicate 16 0) 2 3 []
    (by decide) (by decide) (by decide) (by decide) (by decide)

/-- C1 (amended): on an open of id/property, when the id is present in the
window table an unrecognized property name yields the NotFound result; when
the id is absent, the table indexing panics instead of returning NotFound,
so the call crashes the server. -/
theorem claim1_open_id_lookup (s : SchemeState) (id : Nat) (path : List String) (p : String)
    (hp : path.get? 0 = some p)
    (hbad : p ≠ "content" ∧ p ≠ "title" ∧ p ≠ "events" ∧ p ≠ "dimensions") :
    (∀ w, lookupW s.windows id = some w → s.openId id path = .notFound)
    ∧ (lookupW s.windows id = none → s.openId id path = .panicked) := by
  rw [List.get?_eq_getElem?] at hp
  constructor
  · intro w hw
    simp [SchemeState.openId, hw, hp, hbad.1, hbad.2.1, hbad.2.2.1, hbad.2.2.2]
  · intro hw
    simp [SchemeState.openId, hw]

/-- Counterexample to C1 as stated: opening 1/content, or the whole-window
handle 1, on a session whose table has no window 1 panics the server rather
than returning NotFound. -/
theorem claim1_cex :
    (SchemeState.new 640 480).openId 1 ["content"] = .panicked
    ∧ (SchemeState.new 640 480).openId 1 [] = .panicked
    ∧ OpenOutcome.panicked ≠ OpenOutcome.notFound := by
  refine ⟨rfl, rfl, by decide⟩

/-- Witness for C1 at a table holding window 1 and the unrecognized property
name bogus. -/
theorem claim1_witness :
    ({ SchemeState.new 640 480 with windows := [(1, Window.new 0 0 1 1 "")] } :
        SchemeState).openId 1 ["bogus"] = .notFound :=
  (claim1_open_id_lookup
      { SchemeState.new 640 480 with windows := [(1, Window.new 0 0 1 1 "")] }
      1 ["bogus"] "bogus" rfl (by decide)).1 (Window.new 0 0 1 1 "") (by decide)

/-- C3 (amended): writing B to the Content view at a valid seek offset S
updates the pixel buffer to the original contents with bytes [S, S+len(B))
replaced by B and everything else unchanged, returning len(B); but reading
the buffer back through the Content view is unimplemented and always fails
with the not-found error, so the round trip cannot be observed through a
Content read. -/
theorem claim3_content_roundtrip (w : Window) (S : Nat) (B buf : List Nat)
    (h : S + B.length ≤ w.content.length) :
    ContentResource.write w S B =
      .ok ({ w with content := w.content.take S ++ B ++ w.content.drop (S + B.length) },
           S + B.length, B.length)
    ∧ ContentResource.read
        { w with content := w.content.take S ++ B ++ w.content.drop (S + B.length) } 0 buf
      = (.err ENOENT, buf) := by
  constructor
  · have hmin : min (w.content.length - S) B.length = B.length := by omega
    rw [ContentResource.write, if_pos (by omega)]
    rw [copy_run_eq_splice w.content B S (min (w.content.length - S) B.length)
      (by omega) (by omega)]
    rw [hmin, List.take_length]
  · rfl

/-- Counterexample to C3 as stated: after writing the byte 9 at offset 0 of
a 4-byte buffer, reading the whole buffer back through the Content view
fails with ENOENT instead of returning the spliced buffer contents. -/
theorem claim3_cex :
    ContentResource.write ⟨0, 0, 1, 1, [], [1, 2, 3, 4]⟩ 0 [9]
      = .ok (⟨0, 0, 1, 1, [], [9, 2, 3, 4]⟩, 1, 1)
    ∧ ContentResource.read ⟨0, 0, 1, 1, [], [9, 2, 3, 4]⟩ 0 [0, 0, 0, 0]
      = (.err ENOENT, [0, 0, 0, 0])
    ∧ ((.err ENOENT : SysResult Nat), ([0, 0, 0, 0] : List Nat))
      ≠ ((.ok 4 : SysResult Nat), ([9, 2, 3, 4] : List Nat)) := by
  refine ⟨by decide, rfl, by decide⟩

/-- Witness for C3 at a 4-byte buffer, offset 1 and 2 written bytes. -/
theorem claim3_witness :
    ContentResource.write (Window.new 0 0 1 1 "") 1 [5, 6] =
      .ok ({ Window.new 0 0 1 1 "" with
              content := (Window.new 0 0 1 1 "").content.take 1 ++ [5, 6]
                ++ (Window.new 0 0 1 1 "").content.drop (1 + 2) },
           1 + 2, 2)
    ∧ ContentResource.read
        { Window.new 0 0 1 1 "" with
            content := (Window.new 0 0 1 1 "").content.take 1 ++ [5, 6]
              ++ (Window.new 0 0 1 1 "").content.drop (1 + 2) } 0 [1]
      = (.err ENOENT, [1]) :=
  claim3_content_roundtrip (Window.new 0 0 1 1 "") 1 [5, 6] [1] (by decide)

/-- C7 (amended): writing title bytes that are well-formed UTF-8 containing
no U+FFFD and then reading into a buffer at least as long returns exactly
those bytes; reading into a smaller buffer fails with the buffer-too-small
error (errno ENOENT) and writes no partial data.  For other inputs the
stored title is the lossy clean-up, not the written bytes. -/
theorem claim7_title_roundtrip (win : Window) (B buf : List Nat)
    (hB : validUtf8NoFFFD B = true) :
    (B.length ≤ buf.length →
      TitleResource.read (TitleResource.write win B).2 buf
        = (.ok B.length, B ++ buf.drop B.length))
    ∧ (buf.length < B.length →
      TitleResource.read (TitleResource.write win B).2 buf = (.err ENOENT, buf)) := by
  have ht : (TitleResource.write win B).2.title = B := by
    simp [TitleResource.write, utf8Clean_of_valid B hB]
  constructor
  · intro hle
    rw [TitleResource.read, ht, if_pos hle]
  · intro hlt
    rw [TitleResource.read, ht, if_neg (by omega)]

/-- Counterexample to C7 as stated: writing the invalid UTF-8 byte 0xFF
stores the single byte of the question mark, so reading the title back
yields 0x3F, not the written 0xFF. -/
theorem claim7_cex :
    (TitleResource.write (Window.new 0 0 1 1 "") [255]).2.title = [63]
    ∧ TitleResource.read (TitleResource.write (Window.new 0 0 1 1 "") [255]).2 [0, 0]
      = (.ok 1, [63, 0])
    ∧ (63 : Nat) ≠ 255 := by
  refine ⟨rfl, rfl, by decide⟩

/-- Witness for C7 at the ASCII title Test and a 5-byte buffer. -/
theorem claim7_witness :
    TitleResource.read (TitleResource.write (Window.new 0 0 1 1 "") [84, 101, 115, 116]).2
      [0, 0, 0, 0, 0]
      = (.ok ([84, 101, 115, 116] : List Nat).length,
         [84, 101, 115, 116] ++ ([0, 0, 0, 0, 0] : List Nat).drop 4) :=
  (claim7_title_roundtrip (Window.new 0 0 1 1 "") [84, 101, 115, 116] [0, 0, 0, 0, 0]
    (by decide)).1 (by decide)

/-- From a cursor at 0 the cascade places at 32 whatever the display and
window extents are: wrapping a zero cursor leaves it at zero and the
advance lands on 32. -/
theorem cascadeCode_zero (e n : Nat) : cascadeCode 0 e n = 32 := by
  rw [cascadeCode]
  split_ifs <;> rfl

/-- C5 (amended): when a create call has x <= 0 or y <= 0, each axis first
wraps its cascade cursor to 0 if the pre-advance cursor satisfies
cursor > display_extent - window_extent, then advances the cursor by 32, and
the advanced cursor - never the just-wrapped value itself - is stored and
used as the placement; in particular creating (0,0,200,150,Test) on an
empty session yields id 1 at position (32,32) for every display extent. -/
theorem claim5_cascade (s : SchemeState) (path : List String) (dw dh : Nat)
    (hplace : parseCoord path 0 ≤ 0 ∨ parseCoord path 1 ≤ 0)
    (hid : s.next_window_id ≠ u64MAX) :
    ((s.createOpen path).1.map fun r => (r.2.x, r.2.y))
      = some (cascadeCode s.next_x s.display_w (parseExtent path 2),
              cascadeCode s.next_y s.display_h (parseExtent path 3))
    ∧ (s.createOpen path).2.next_x = cascadeCode s.next_x s.display_w (parseExtent path 2)
    ∧ (s.createOpen path).2.next_y = cascadeCode s.next_y s.display_h (parseExtent path 3)
    ∧ (((SchemeState.new dw dh).createOpen ["0", "0", "200", "150", "Test"]).1.map
        fun r => (r.1, r.2.x, r.2.y)) = some (1, 32, 32) := by
  have hscenario :
      (((SchemeState.new dw dh).createOpen ["0", "0", "200", "150", "Test"]).1.map
        fun r => (r.1, r.2.x, r.2.y)) = some (1, 32, 32) := by
    have h0 : to_num_signed "0" = 0 := by decide
    have hnew : (SchemeState.new dw dh).next_window_id = 1 := rfl
    simp [SchemeState.createOpen, parseCoord, SchemeState.next_id, SchemeState.new,
      cascadeCode_zero, h0, Window.new, u64MAX]
  refine ⟨?_, ?_, ?_, hscenario⟩ <;>
    simp [SchemeState.createOpen, hplace, hid, SchemeState.next_id, Window.new]

/-- Counterexample to C5 as stated: on a 100 by 100 display, creating an
80-wide window with x = 0 from a fresh session places it at x = 32, while the
advance-then-wrap-then-use rule of the claim yields placement 0, because the
advanced cursor 32 exceeds 100 - 80 and is wrapped before use. -/
theorem claim5_cex :
    (((SchemeState.new 100 100).createOpen ["0", "0", "80", "80"]).1.map fun r => r.2.x)
      = some 32
    ∧ cascadeClaim 0 100 80 = 0
    ∧ (32 : Int) ≠ 0 := by
  refine ⟨by decide, by decide, by decide⟩

/-- Witness for C5 at a fresh 640 by 480 session and the address 0: the
placement and stored cursors follow the wrap-then-advance rule and the
scenario lands window 1 at (32,32). -/
theorem claim5_witness :
    (((SchemeState.new 640 480).createOpen ["0"]).1.map fun r => (r.2.x, r.2.y))
      = some (cascadeCode (SchemeState.new 640 480).next_x
                (SchemeState.new 640 480).display_w (parseExtent ["0"] 2),
              cascadeCode (SchemeState.new 640 480).next_y
                (SchemeState.new 640 480).display_h (parseExtent ["0"] 3))
    ∧ ((SchemeState.new 640 480).createOpen ["0"]).2.next_x
      = cascadeCode (SchemeState.new 640 480).next_x
          (SchemeState.new 640 480).display_w (parseExtent ["0"] 2)
    ∧ ((SchemeState.new 640 480).createOpen ["0"]).2.next_y
      = cascadeCode (SchemeState.new 640 480).next_y
          (SchemeState.new 640 480).display_h (parseExtent ["0"] 3)
    ∧ (((SchemeState.new 640 480).createOpen ["0", "0", "200", "150", "Test"]).1.map
        fun r => (r.1, r.2.x, r.2.y)) = some (1, 32, 32) :=
  claim5_cascade (SchemeState.new 640 480) ["0"] 640 480 (by decide) (by decide)

/-- Width of a freshly constructed window. -/
theorem Window.new_width (x y : Int) (w h : Nat) (t : String) :
    (Window.new x y w h t).width = w := rfl

/-- Height of a freshly constructed window. -/
theorem Window.new_height (x y : Int) (w h : Nat) (t : String) :
    (Window.new x y w h t).height = h := rfl

/-- C4 (amended): an unparsable x or y field behaves exactly like the same
address with that trailing field omitted (both default to 0), and parse
failure is never reported as an error; but an unparsable w or h field yields
extent 0, whereas omitting the field yields the default 100, so the created
windows differ in size. -/
theorem claim4_parse_or_default (s : SchemeState) (x y w h : String)
    (hx : isNumericSigned x = false) (hy : isNumericSigned y = false)
    (hw : isNumeric w = false) (hh : isNumeric h = false)
    (hid : s.next_window_id ≠ u64MAX) :
    (s.createOpen [x]).1 = (s.createOpen []).1
    ∧ (s.createOpen [x, y]).1 = (s.createOpen [x]).1
    ∧ ((s.createOpen ["1", "1", w]).1.map fun r => (r.2.width, r.2.height)) = some (0, 100)
    ∧ ((s.createOpen ["1", "1"]).1.map fun r => (r.2.width, r.2.height)) = some (100, 100)
    ∧ ((s.createOpen ["1", "1", "1", h]).1.map fun r => r.2.height) = some 0
    ∧ (s.createOpen [x, y, w, h]).1.isSome = true := by
  have hx0 := to_num_signed_of_not_numeric x hx
  have hy0 := to_num_signed_of_not_numeric y hy
  have hw0 := to_num_of_not_numeric w hw
  have hh0 := to_num_of_not_numeric h hh
  have h1 : to_num_signed "1" = 1 := by decide
  have h1n : to_num "1" = 1 := by decide
  refine ⟨?_, ?_, ?_, ?_, ?_, ?_⟩ <;>
    simp [SchemeState.createOpen, parseCoord, parseExtent, parseTitle,
      SchemeState.next_id, hid, hx0, hy0, hw0, hh0, h1, h1n,
      Window.new_width, Window.new_height]

/-- Counterexample to C4 as stated: the address 5/5/abc (unparsable w) makes
a window of width 0, while 5/5 (w omitted) makes one of width 100, so the
created windows differ. -/
theorem claim4_cex :
    (((SchemeState.new 640 480).createOpen ["5", "5", "abc"]).1.map fun r => r.2.width)
      = some 0
    ∧ (((SchemeState.new 640 480).createOpen ["5", "5"]).1.map fun r => r.2.width)
      = some 100
    ∧ (0 : Nat) ≠ 100 := by
  refine ⟨by decide, by decide, by decide⟩

/-- Witness for C4 at a fresh 640 by 480 session with unparsable fields a,
b, c, d. -/
theorem claim4_witness :
    ((SchemeState.new 640 480).createOpen ["a"]).1
      = ((SchemeState.new 640 480).createOpen []).1
    ∧ ((SchemeState.new 640 480).createOpen ["a", "b"]).1
      = ((SchemeState.new 640 480).createOpen ["a"]).1
    ∧ (((SchemeState.new 640 480).createOpen ["1", "1", "c"]).1.map
        fun r => (r.2.width, r.2.height)) = some (0, 100)
    ∧ (((SchemeState.new 640 480).createOpen ["1", "1"]).1.map
        fun r => (r.2.width, r.2.height)) = some (100, 100)
    ∧ (((SchemeState.new 640 480).createOpen ["1", "1", "1", "d"]).1.map
        fun r => r.2.height) = some 0
    ∧ ((SchemeState.new 640 480).createOpen ["a", "b", "c", "d"]).1.isSome = true :=
  claim4_parse_or_default (SchemeState.new 640 480) "a" "b" "c" "d"
    (by decide) (by decide) (by decide) (by decide) (by decide)
